import Mathlib

/-!
# Verification of the cyber-range reset orchestrator

Shallow embedding of
`plugins/cyber-range-design/skills/cyber-range-design/scripts/reset-orchestrator.py`:
the data model (`ResetLevel`, `ResetAction`, `ResetTask`, `ResetOperation`),
the planner (`plan_reset`, lines 438-501), the derived `status`/`progress`
properties (lines 79-96), the executor (`execute`, lines 503-559, modelled
both as a per-task result function and as an interleaved small-step trace
whose suspension points match the coroutine's await boundaries), and the CLI
entry point's validation and exit-code logic (`main`, lines 737-812).

Python `datetime.now()` values are modelled by an abstract `Nat` clock;
Python `None` by `Option`; exceptions raised by adapter calls by
`Except String`.  Enum values compare by derived decidable equality, which
matches Python `Enum` identity comparison.
-/

/-- Scope of reset operation (`ResetLevel`, source lines 35-40). -/
inductive ResetLevel
  | VM
  | TEAM
  | ZONE
  | FULL
deriving DecidableEq, Repr

/-- Type of reset action (`ResetAction`, source lines 43-48). -/
inductive ResetAction
  | SNAPSHOT_REVERT
  | POWER_CYCLE
  | CHECKPOINT_RESTORE
  | REBUILD
deriving DecidableEq, Repr

/-- Python `str(action)` for a `ResetAction` member, as interpolated into the
`Unsupported action` message at source line 539. -/
def actionStr : ResetAction → String
  | .SNAPSHOT_REVERT => "ResetAction.SNAPSHOT_REVERT"
  | .POWER_CYCLE => "ResetAction.POWER_CYCLE"
  | .CHECKPOINT_RESTORE => "ResetAction.CHECKPOINT_RESTORE"
  | .REBUILD => "ResetAction.REBUILD"

/-- Individual reset task (`ResetTask`, source lines 51-60).  `vm_name` is
`Option String` because it is filled from `vm.get('name')`, which can be
`None` for a malformed topology entry. -/
structure ResetTask where
  vm_name : Option String
  action : ResetAction
  snapshot_name : Option String := none
  status : String := "pending"
  start_time : Option Nat := none
  end_time : Option Nat := none
  error : Option String := none
deriving DecidableEq, Repr

/-- Complete reset operation (`ResetOperation`, source lines 69-77). -/
structure ResetOperation where
  operation_id : String
  level : ResetLevel
  action : ResetAction
  tasks : List ResetTask := []
  start_time : Option Nat := none
  end_time : Option Nat := none
deriving DecidableEq, Repr

/-- Derived operation status (source lines 79-89): the exact cascade of the
`status` property over a task list. -/
def opStatus (tasks : List ResetTask) : String :=
  if tasks.isEmpty then "empty"
  else if tasks.any (fun t => t.status == "failed") then "failed"
  else if tasks.all (fun t => t.status == "completed") then "completed"
  else if tasks.any (fun t => t.status == "running") then "running"
  else "pending"

/-- `ResetOperation.status` (source lines 79-89). -/
def ResetOperation.status (op : ResetOperation) : String :=
  opStatus op.tasks

/-- Derived progress percentage over a task list (source lines 91-96):
`0.0` for an empty list, else completed count over total, times 100. -/
def progressTasks (tasks : List ResetTask) : ℚ :=
  if tasks.isEmpty then 0
  else ((tasks.countP fun t => t.status == "completed" : Nat) : ℚ)
        / ((tasks.length : Nat) : ℚ) * 100

/-- `ResetOperation.progress` (source lines 91-96). -/
def ResetOperation.progress (op : ResetOperation) : ℚ :=
  progressTasks op.tasks

/-- Modelled from the spec §3: the spec's own wording of the derived status
("`empty` if no tasks; else `failed` if any task failed; else `completed` if
all tasks completed; else `running` if any task is running; else `pending`"),
written with propositional quantifiers, to be compared with `opStatus`. -/
def specStatus (tasks : List ResetTask) : String :=
  if tasks = [] then "empty"
  else if ∃ t ∈ tasks, t.status = "failed" then "failed"
  else if ∀ t ∈ tasks, t.status = "completed" then "completed"
  else if ∃ t ∈ tasks, t.status = "running" then "running"
  else "pending"

/-- One VM descriptor inside a zone of the YAML topology: the orchestrator
reads `vm.get('name')` and `vm.get('team')`, both possibly absent. -/
structure VMDesc where
  name : Option String
  team : Option Int
deriving DecidableEq, Repr

/-- One zone of the topology: `zone_config.get('vms', [])`. -/
structure ZoneConfig where
  vms : List VMDesc
deriving DecidableEq, Repr

/-- The range configuration: `config.get('zones', {})` as an insertion-ordered
association list (Python dicts preserve insertion order). -/
structure RangeConfig where
  zones : List (String × ZoneConfig)
deriving DecidableEq, Repr

/-- An entry of `vms_to_reset` (source lines 481-485). -/
structure VMEntry where
  name : Option String
  zone : String
  team : Option Int
deriving DecidableEq, Repr

/-- Python truthiness of an `Optional[str]`: `None` and `""` are falsy. -/
def truthyStr : Option String → Bool
  | none => false
  | some s => s != ""

/-- Python truthiness of an `Optional[int]`: `None` and `0` are falsy. -/
def truthyInt : Option Int → Bool
  | none => false
  | some t => t != 0

/-- Zone-level `continue` condition (source line 472):
`level == ResetLevel.ZONE and zone and zone_name != zone`. -/
def zoneSkipped (level : ResetLevel) (zone : Option String) (zoneName : String) : Bool :=
  level == ResetLevel.ZONE && truthyStr zone && some zoneName != zone

/-- VM-level `continue` conditions (source lines 476-479):
`level == ResetLevel.VM and vm.get('name') != vm_name` or
`level == ResetLevel.TEAM and team and vm.get('team') != team`. -/
def vmSkipped (level : ResetLevel) (team : Option Int) (vm_name : Option String)
    (v : VMDesc) : Bool :=
  (level == ResetLevel.VM && v.name != vm_name)
    || (level == ResetLevel.TEAM && truthyInt team && v.team != team)

/-- The collection loop of `plan_reset` (source lines 469-485): iterate zones
in order, skip filtered zones and VMs, and record `{name, zone, team}`. -/
def vmsToReset (cfg : RangeConfig) (level : ResetLevel) (zone : Option String)
    (team : Option Int) (vm_name : Option String) : List VMEntry :=
  cfg.zones.flatMap fun z =>
    if zoneSkipped level zone z.1 then []
    else (z.2.vms.filter fun v => !vmSkipped level team vm_name v).map
      fun v => { name := v.name, zone := z.1, team := v.team }

/-- `ResetOrchestrator.plan_reset` (source lines 438-501).  The
timestamp-derived `operation_id` is passed in as `operation_id`.  Note the
source performs no parameter validation here: it resolves the scope and
returns the operation unconditionally. -/
def plan_reset (cfg : RangeConfig) (operation_id : String) (level : ResetLevel)
    (action : ResetAction) (snapshot_name : Option String) (zone : Option String)
    (team : Option Int) (vm_name : Option String) : ResetOperation :=
  { operation_id := operation_id
    level := level
    action := action
    tasks := (vmsToReset cfg level zone team vm_name).map fun v =>
      { vm_name := v.name, action := action, snapshot_name := snapshot_name } }

/-- A hypervisor adapter: the two mutating operations the executor dispatches
to (`revert_snapshot`, `power_cycle`).  A raised exception is modelled as
`Except.error` carrying `str(e)`. -/
structure Adapter where
  revert_snapshot : Option String → Option String → Except String Unit
  power_cycle : Option String → Except String Unit

/-- The dispatch inside `execute_task` (source lines 530-539): route by the
task's action; any other action raises
`ValueError(f"Unsupported action: {task.action}")`. -/
def dispatchAction (ad : Adapter) (t : ResetTask) : Except String Unit :=
  match t.action with
  | .SNAPSHOT_REVERT => ad.revert_snapshot t.vm_name t.snapshot_name
  | .POWER_CYCLE => ad.power_cycle t.vm_name
  | a => .error ("Unsupported action: " ++ actionStr a)

/-- Final state of one task after `execute_task` (source lines 525-549):
status `running` and `start_time` are set, the dispatch runs, success yields
`completed`, an exception yields `failed` with the error string recorded, and
the `finally` block always sets `end_time`. -/
def executeTask (ad : Adapter) (now : Nat) (t : ResetTask) : ResetTask :=
  match dispatchAction ad t with
  | .ok _ =>
    { t with status := "completed", start_time := some now, end_time := some now }
  | .error e =>
    { t with status := "failed", start_time := some now, error := some e,
             end_time := some now }

/-- `ResetOrchestrator.execute` (source lines 503-559) as a function on the
final states: sets the operation `start_time`, runs every task to its
terminal state (the `asyncio.gather` returns only when all per-task
coroutines have finished, and each catches its own exceptions), then sets
`end_time`. -/
def executeOp (ad : Adapter) (op : ResetOperation) (now : Nat) : ResetOperation :=
  { op with start_time := some now
            tasks := op.tasks.map (executeTask ad now)
            end_time := some (now + 1) }

/-- One cooperative step of `execute_task` as observable between its `await`
suspension points: a `pending` task becomes `running` with `start_time` set
(lines 527-528, no await in between), and a `running` task finishes its
adapter call and reaches its terminal state with `error` and `end_time` set
(lines 530-549, the try/except/finally runs without suspension after the
awaited call returns or raises). -/
def advanceTask (ad : Adapter) (now : Nat) (t : ResetTask) : ResetTask :=
  if t.status = "pending" then
    { t with status := "running", start_time := some now }
  else if t.status = "running" then
    match dispatchAction ad t with
    | .ok _ => { t with status := "completed", end_time := some now }
    | .error e => { t with status := "failed", error := some e, end_time := some now }
  else t

/-- Apply `f` to the element at index `i`, if any. -/
def modifyIdx (f : α → α) : List α → Nat → List α
  | [], _ => []
  | a :: as, 0 => f a :: as
  | a :: as, n + 1 => a :: modifyIdx f as n

/-- State of an in-flight `execute` call: the task list plus an abstract
clock supplying `datetime.now()` values. -/
structure ExecState where
  tasks : List ResetTask
  clock : Nat
deriving DecidableEq, Repr

/-- The event loop advances the task at index `i` by one stage. -/
def stepAt (ad : Adapter) (s : ExecState) (i : Nat) : ExecState :=
  { tasks := modifyIdx (advanceTask ad s.clock) s.tasks i, clock := s.clock + 1 }

/-- Run a whole schedule of cooperative steps; any interleaving the event
loop can produce during one `execute` call is such a schedule. -/
def runSched (ad : Adapter) (s : ExecState) (sched : List Nat) : ExecState :=
  sched.foldl (stepAt ad) s

/-- Argument validation in `main` (source lines 743-753): the four
`parser.error` guards, returning the first error message, or `none` when the
combination is accepted.  Note `--team` is checked with `is None` (so team 0
passes validation) while `--snapshot`, `--zone`, `--vm` are checked by
truthiness. -/
def validateArgs (level : ResetLevel) (action : ResetAction)
    (snapshot : Option String) (zone : Option String) (team : Option Int)
    (vm : Option String) : Option String :=
  if action == ResetAction.SNAPSHOT_REVERT && !truthyStr snapshot then
    some "--snapshot is required for snapshot_revert action"
  else if level == ResetLevel.TEAM && team == none then
    some "--team is required for team-level reset"
  else if level == ResetLevel.ZONE && !truthyStr zone then
    some "--zone is required for zone-level reset"
  else if level == ResetLevel.VM && !truthyStr vm then
    some "--vm is required for vm-level reset"
  else none

/-- `true` exactly on `Except.error`. -/
def isError : Except String ResetOperation → Bool
  | .error _ => true
  | .ok _ => false

/-- The validate-then-plan pipeline of `main` (source lines 737-766):
`parser.error` aborts before `plan_reset` is ever called, so planning is
reached only when `validateArgs` accepts. -/
def mainPlan (cfg : RangeConfig) (operation_id : String) (level : ResetLevel)
    (action : ResetAction) (snapshot : Option String) (zone : Option String)
    (team : Option Int) (vm : Option String) : Except String ResetOperation :=
  match validateArgs level action snapshot zone team vm with
  | some e => .error e
  | none => .ok (plan_reset cfg operation_id level action snapshot zone team vm)

/-- The exit-code logic of `main` (source lines 768-770 and 806-808): an
empty plan prints a message and returns 1 before executing; otherwise the
operation is executed and the exit code is 0 exactly when its derived status
is `completed`. -/
def mainExitCode (ad : Adapter) (op : ResetOperation) (now : Nat) : Nat :=
  if op.tasks.isEmpty then 1
  else if (executeOp ad op now).status = "completed" then 0 else 1

/-- The task-record invariant of spec §3: `end_time` set iff the status is
terminal, `error` set iff the status is `failed`. -/
def taskInv (t : ResetTask) : Prop :=
  (t.end_time ≠ none ↔ (t.status = "completed" ∨ t.status = "failed"))
    ∧ (t.error ≠ none ↔ t.status = "failed")

instance (t : ResetTask) : Decidable (taskInv t) := by
  unfold taskInv; infer_instance

/-- All VM `name` fields across the topology, in enumeration order. -/
def allVmNames (cfg : RangeConfig) : List (Option String) :=
  cfg.zones.flatMap fun z => z.2.vms.map (·.name)

/-- Render an `Option String` VM name the way Python f-strings render it. -/
def optName : Option String → String
  | some s => s
  | none => "None"

/-- The `DryRunAdapter` (source lines 357-381): both mutating calls
unconditionally succeed. -/
def dryRunAdapter : Adapter :=
  { revert_snapshot := fun _ _ => .ok ()
    power_cycle := fun _ => .ok () }

/-- A deterministic failing adapter: both calls raise
`ValueError(f"VM not found: {vm_name}")` for the designated VM, as the real
adapters do (source lines 164, 190, 321, 340), and succeed otherwise. -/
def failAdapter (bad : Option String) : Adapter :=
  { revert_snapshot := fun vm _ =>
      if vm == bad then .error ("VM not found: " ++ optName vm) else .ok ()
    power_cycle := fun vm =>
      if vm == bad then .error ("VM not found: " ++ optName vm) else .ok () }

/-- Default task used with `List.getD`. -/
def dfltTask : ResetTask :=
  { vm_name := none, action := .POWER_CYCLE }

/-! ### Concrete fixtures used by witnesses and counterexamples -/

/-- One zone `alpha` with a single team-1 VM `a`. -/
def cfgOne : RangeConfig :=
  { zones := [("alpha", { vms := [{ name := some "a", team := some 1 }] })] }

/-- One zone `alpha` holding a team-0 VM `a` and a team-1 VM `b`. -/
def cfgTeams : RangeConfig :=
  { zones := [("alpha", { vms := [{ name := some "a", team := some 0 },
                                  { name := some "b", team := some 1 }] })] }

/-- Two zones each containing a VM named `x`: duplicate names across zones. -/
def cfgDup : RangeConfig :=
  { zones := [("z1", { vms := [{ name := some "x", team := none }] }),
              ("z2", { vms := [{ name := some "x", team := none }] })] }

/-- An operation with no tasks. -/
def emptyOp : ResetOperation :=
  { operation_id := "e", level := .FULL, action := .POWER_CYCLE }

/-- Three power-cycle tasks; the middle one targets the VM `bad`. -/
def opThree : ResetOperation :=
  { operation_id := "w", level := .FULL, action := .POWER_CYCLE
    tasks := [{ vm_name := some "g1", action := .POWER_CYCLE },
              { vm_name := some "bad", action := .POWER_CYCLE },
              { vm_name := some "g2", action := .POWER_CYCLE }] }

/-- One good and one bad power-cycle task, freshly planned. -/
def opMixed : ResetOperation :=
  { operation_id := "m", level := .FULL, action := .POWER_CYCLE
    tasks := [{ vm_name := some "good", action := .POWER_CYCLE },
              { vm_name := some "bad", action := .POWER_CYCLE }] }

/-- A single failing task, for the exit-code witness. -/
def opOneBad : ResetOperation :=
  { operation_id := "b", level := .FULL, action := .POWER_CYCLE
    tasks := [{ vm_name := some "bad", action := .POWER_CYCLE }] }

/-- A freshly-planned single pending task. -/
def pendTask : ResetTask :=
  { vm_name := some "a", action := .POWER_CYCLE }

/-- A task that has run to completion at clock 0/1. -/
def doneTask : ResetTask :=
  { vm_name := some "a", action := .POWER_CYCLE, status := "completed",
    start_time := some 0, end_time := some 1 }

/-- A task carrying an action outside the executor's dispatch table. -/
def checkpointTask : ResetTask :=
  { vm_name := some "v", action := .CHECKPOINT_RESTORE }

/-- Two operations that differ only outside their task lists. -/
def opIdA : ResetOperation :=
  { operation_id := "A", level := .FULL, action := .POWER_CYCLE
    tasks := [{ vm_name := some "a", action := .POWER_CYCLE }] }

/-- Same task list as `opIdA`, different id, level and action. -/
def opIdB : ResetOperation :=
  { operation_id := "B", level := .ZONE, action := .SNAPSHOT_REVERT
    tasks := [{ vm_name := some "a", action := .POWER_CYCLE }] }

/-! ### Helper lemmas -/

theorem dispatchAction_congr (ad : Adapter) (t₁ t₂ : ResetTask)
    (ha : t₁.action = t₂.action) (hv : t₁.vm_name = t₂.vm_name)
    (hs : t₁.snapshot_name = t₂.snapshot_name) :
    dispatchAction ad t₁ = dispatchAction ad t₂ := by
  unfold dispatchAction
  rw [ha, hv, hs]

/-- `executeTask` agrees with running the two cooperative stages of
`advanceTask` on a fresh task, when both stages observe the same clock. -/
theorem executeTask_eq_advance_twice (ad : Adapter) (now : Nat) (t : ResetTask)
    (h : t.status = "pending") :
    executeTask ad now t = advanceTask ad now (advanceTask ad now t) := by
  cases t with
  | mk vm act sn st st₁ et er =>
    have h' : st = "pending" := h
    subst h'
    cases act with
    | SNAPSHOT_REVERT =>
      rcases hd : ad.revert_snapshot vm sn with e | u <;>
        simp [executeTask, advanceTask, dispatchAction, hd]
    | POWER_CYCLE =>
      rcases hd : ad.power_cycle vm with e | u <;>
        simp [executeTask, advanceTask, dispatchAction, hd]
    | CHECKPOINT_RESTORE => simp [executeTask, advanceTask, dispatchAction]
    | REBUILD => simp [executeTask, advanceTask, dispatchAction]

theorem getD_map_lt (f : α → β) (l : List α) (i : Nat) (d : β) (d' : α)
    (h : i < l.length) : (l.map f).getD i d = f (l.getD i d') := by
  rw [List.getD_eq_getElem _ _ (by simpa using h), List.getD_eq_getElem _ _ h,
    List.getElem_map]

theorem length_modifyIdx (f : α → α) (l : List α) (i : Nat) :
    (modifyIdx f l i).length = l.length := by
  induction l generalizing i with
  | nil => rfl
  | cons a as ih =>
    cases i with
    | zero => rfl
    | succ n => simp [modifyIdx, ih]

theorem countP_le_countP_modifyIdx (p : α → Bool) (f : α → α) (l : List α)
    (i : Nat) (hf : ∀ a, p a = true → p (f a) = true) :
    l.countP p ≤ (modifyIdx f l i).countP p := by
  induction l generalizing i with
  | nil => simp [modifyIdx]
  | cons a as ih =>
    cases i with
    | zero =>
      simp only [modifyIdx, List.countP_cons]
      have h1 : (if p a then 1 else 0) ≤ (if p (f a) then 1 else 0 : Nat) := by
        rcases hpa : p a with _ | _
        · simp
        · simp [hf a hpa]
      exact Nat.add_le_add_left h1 _
    | succ n =>
      simp only [modifyIdx, List.countP_cons]
      have := ih n
      omega

theorem mem_modifyIdx_of_forall {P : α → Prop} (f : α → α) (l : List α) (i : Nat)
    (hl : ∀ a ∈ l, P a) (hf : ∀ a, P a → P (f a)) :
    ∀ b ∈ modifyIdx f l i, P b := by
  induction l generalizing i with
  | nil => intro b hb; simp [modifyIdx] at hb
  | cons a as ih =>
    cases i with
    | zero =>
      intro b hb
      rcases List.mem_cons.mp hb with h | h
      · exact h ▸ hf a (hl a (List.mem_cons_self a as))
      · exact hl b (List.mem_cons_of_mem a h)
    | succ n =>
      intro b hb
      rcases List.mem_cons.mp hb with h | h
      · exact h ▸ hl a (List.mem_cons_self a as)
      · exact ih n (fun x hx => hl x (List.mem_cons_of_mem a hx)) b h

theorem advanceTask_status_completed (ad : Adapter) (now : Nat) (t : ResetTask)
    (h : t.status = "completed") : (advanceTask ad now t).status = "completed" := by
  rw [advanceTask, if_neg (by rw [h]; decide), if_neg (by rw [h]; decide)]
  exact h

theorem advanceTask_taskInv (ad : Adapter) (now : Nat) (t : ResetTask)
    (h : taskInv t) : taskInv (advanceTask ad now t) := by
  obtain ⟨he, hr⟩ := h
  rw [advanceTask]
  by_cases hp : t.status = "pending"
  · rw [if_pos hp]
    have hend : t.end_time = none := by
      by_contra hne
      rcases he.mp hne with h1 | h1 <;> rw [hp] at h1 <;> exact absurd h1 (by decide)
    have herr : t.error = none := by
      by_contra hne
      have := hr.mp hne
      rw [hp] at this
      exact absurd this (by decide)
    constructor <;> simp [hend, herr]
  · rw [if_neg hp]
    by_cases hrun : t.status = "running"
    · rw [if_pos hrun]
      have herr : t.error = none := by
        by_contra hne
        have := hr.mp hne
        rw [hrun] at this
        exact absurd this (by decide)
      rcases hd : dispatchAction ad t with e | u
      · constructor <;> simp [herr]
      · constructor <;> simp [herr]
    · rw [if_neg hrun]
      exact ⟨he, hr⟩

theorem opStatus_eq_failed (l : List ResetTask) (t : ResetTask) (ht : t ∈ l)
    (hf : t.status = "failed") : opStatus l = "failed" := by
  have hne : l.isEmpty = false := by
    rcases l with _ | ⟨a, as⟩
    · simp at ht
    · rfl
  have hany : l.any (fun t => t.status == "failed") = true :=
    List.any_eq_true.mpr ⟨t, ht, by simp [hf]⟩
  rw [opStatus, hne, if_neg (by simp), if_pos hany]

theorem progressTasks_le (l l' : List ResetTask)
    (hlen : l'.length = l.length)
    (hcnt : l.countP (fun t => t.status == "completed")
      ≤ l'.countP (fun t => t.status == "completed")) :
    progressTasks l ≤ progressTasks l' := by
  rcases l with _ | ⟨a, as⟩
  · rcases l' with _ | ⟨b, bs⟩
    · exact le_refl _
    · simp at hlen
  · rcases l' with _ | ⟨b, bs⟩
    · simp at hlen
    · rw [progressTasks, progressTasks]
      simp only [List.isEmpty_cons, if_false, Bool.false_eq_true]
      have hpos : (0 : ℚ) < ((a :: as).length : ℚ) := by
        exact_mod_cast Nat.succ_pos as.length
      rw [hlen]
      apply mul_le_mul_of_nonneg_right _ (by norm_num)
      exact (div_le_div_iff_of_pos_right hpos).mpr (by exact_mod_cast hcnt)

theorem progressTasks_step (ad : Adapter) (s : ExecState) (i : Nat) :
    progressTasks s.tasks ≤ progressTasks (stepAt ad s i).tasks := by
  apply progressTasks_le
  · exact length_modifyIdx ..
  · exact countP_le_countP_modifyIdx _ _ _ _ (fun a ha => by
      have := advanceTask_status_completed ad s.clock a (by simpa using ha)
      simp [this])

theorem progressTasks_runSched (ad : Adapter) (sched : List Nat) (s : ExecState) :
    progressTasks s.tasks ≤ progressTasks (runSched ad s sched).tasks := by
  induction sched generalizing s with
  | nil => exact le_refl _
  | cons i rest ih =>
    calc progressTasks s.tasks ≤ progressTasks (stepAt ad s i).tasks :=
          progressTasks_step ad s i
      _ ≤ progressTasks (runSched ad (stepAt ad s i) rest).tasks := ih _

theorem taskInv_runSched (ad : Adapter) (sched : List Nat) (s : ExecState)
    (h : ∀ t ∈ s.tasks, taskInv t) :
    ∀ t ∈ (runSched ad s sched).tasks, taskInv t := by
  induction sched generalizing s with
  | nil => exact h
  | cons i rest ih =>
    exact ih (stepAt ad s i)
      (mem_modifyIdx_of_forall _ _ _ h (advanceTask_taskInv ad s.clock))

theorem executeTask_of_ok (ad : Adapter) (now : Nat) (t : ResetTask)
    (h : dispatchAction ad t = .ok ()) :
    executeTask ad now t
      = { t with status := "completed", start_time := some now,
                 end_time := some now } := by
  rw [executeTask, h]

theorem executeTask_of_error (ad : Adapter) (now : Nat) (t : ResetTask)
    (e : String) (h : dispatchAction ad t = .error e) :
    executeTask ad now t
      = { t with status := "failed", start_time := some now, error := some e,
                 end_time := some now } := by
  rw [executeTask, h]

theorem opStatus_eq_specStatus (l : List ResetTask) : opStatus l = specStatus l := by
  rw [opStatus, specStatus]
  simp only [List.isEmpty_iff, List.any_eq_true, List.all_eq_true, beq_iff_eq]

theorem validateArgs_eq_none (level : ResetLevel) (action : ResetAction)
    (snap zone : Option String) (team : Option Int) (vm : Option String)
    (h : validateArgs level action snap zone team vm = none) :
    ¬(action = .SNAPSHOT_REVERT ∧ truthyStr snap = false)
      ∧ ¬(level = .TEAM ∧ team = none)
      ∧ ¬(level = .ZONE ∧ truthyStr zone = false)
      ∧ ¬(level = .VM ∧ truthyStr vm = false) := by
  rw [validateArgs] at h
  split_ifs at h with h1 h2 h3 h4
  refine ⟨?_, ?_, ?_, ?_⟩
  · rintro ⟨ha, hb⟩
    exact h1 (by simp [ha, hb])
  · rintro ⟨ha, hb⟩
    exact h2 (by simp [ha, hb])
  · rintro ⟨ha, hb⟩
    exact h3 (by simp [ha, hb])
  · rintro ⟨ha, hb⟩
    exact h4 (by simp [ha, hb])

/-! ### Claim theorems -/

/-- C1, counterexample: the planner itself (`plan_reset`) does not fail on a
`SNAPSHOT_REVERT` call without a snapshot name, nor on a `TEAM` call without
a team filter: in both cases scope resolution runs and a `ResetOperation`
with one task is returned, contradicting "planning fails … and scope
resolution is never attempted (no ResetOperation is returned)". -/
theorem C1_counterexample :
    (plan_reset cfgOne "op" .FULL .SNAPSHOT_REVERT none none none none).tasks.length = 1
      ∧ (plan_reset cfgOne "op" .TEAM .POWER_CYCLE none none none none).tasks.length = 1 := by
  decide

/-- C1, amended: the validation lives in the CLI entry point, not in the
planner: `main` rejects `snapshot_revert` without a snapshot and
`team`/`zone`/`vm` levels without the corresponding filter via
`parser.error` before `plan_reset` is ever called, so in the
validate-then-plan pipeline planning fails and resolution is never
attempted; `plan_reset` itself performs no validation. -/
theorem C1_amended (cfg : RangeConfig) (oid : String) (level : ResetLevel)
    (action : ResetAction) (snap zone : Option String) (team : Option Int)
    (vm : Option String)
    (h : (action = .SNAPSHOT_REVERT ∧ truthyStr snap = false)
        ∨ (level = .TEAM ∧ team = none)
        ∨ (level = .ZONE ∧ truthyStr zone = false)
        ∨ (level = .VM ∧ truthyStr vm = false)) :
    isError (mainPlan cfg oid level action snap zone team vm) = true := by
  rw [mainPlan]
  rcases hval : validateArgs level action snap zone team vm with _ | e
  · obtain ⟨h1, h2, h3, h4⟩ := validateArgs_eq_none level action snap zone team vm hval
    rcases h with h | h | h | h
    · exact absurd h h1
    · exact absurd h h2
    · exact absurd h h3
    · exact absurd h h4
  · rfl

/-- C1, witness for the amended theorem: a `TEAM`-level call with no team
filter is rejected by the CLI validation before planning. -/
theorem C1_witness :
    isError (mainPlan cfgOne "op" .TEAM .POWER_CYCLE none none none none) = true :=
  C1_amended cfgOne "op" .TEAM .POWER_CYCLE none none none none
    (Or.inr (Or.inl ⟨rfl, rfl⟩))

/-- C3: the derived operation status matches the spec's cascade (`empty`,
else `failed`, else `completed`, else `running`, else `pending`), and it is
a pure function of the task list alone: two operations with equal task lists
have equal statuses, so recomputing on an unmutated list is idempotent. -/
theorem C3_status_pure :
    (∀ op : ResetOperation, op.status = specStatus op.tasks)
      ∧ (∀ op₁ op₂ : ResetOperation, op₁.tasks = op₂.tasks →
          op₁.status = op₂.status) := by
  constructor
  · intro op
    exact opStatus_eq_specStatus op.tasks
  · intro op₁ op₂ h
    rw [ResetOperation.status, ResetOperation.status, h]

/-- C3, witness: two operations sharing a task list but differing in id,
level and action have the same derived status, and it matches the spec
cascade. -/
theorem C3_witness : opIdA.status = opIdB.status :=
  C3_status_pure.2 opIdA opIdB rfl

/-- C4: evaluation at the failing input.  With the topology `cfgTeams`
(VM `a` has team 0, VM `b` has team 1), planning a `TEAM` reset with
`team = 0` returns BOTH VMs: the Python guard `team and vm.get('team') != team`
is falsy for `team = 0`, so the filter is skipped entirely, even though
`main` deliberately accepts team 0 (`args.team is None`).  The claim (and
spec P1) require exactly the team-0 VMs, i.e. `[some "a"]`. -/
theorem C4_team_zero_eval :
    ((plan_reset cfgTeams "op" .TEAM .POWER_CYCLE none none (some 0) none).tasks.map
        fun t => t.vm_name) = [some "a", some "b"]
      ∧ ([some "a", some "b"] : List (Option String)) ≠ [some "a"] := by
  decide

/-- C5, counterexample: executing an operation with zero tasks yields derived
progress `0`, not the claimed 100%. -/
theorem C5_counterexample :
    (executeOp dryRunAdapter emptyOp 0).progress = 0
      ∧ (executeOp dryRunAdapter emptyOp 0).progress ≠ 100 := by
  decide

/-- C5, amended: executing an operation with zero tasks is a no-op success:
execute returns with the task list still empty, the derived status is
`empty`, and the derived progress is 0% (the source returns `0.0` for an
empty task list, not 100%). -/
theorem C5_amended (ad : Adapter) (op : ResetOperation) (now : Nat)
    (h : op.tasks = []) :
    (executeOp ad op now).tasks = []
      ∧ (executeOp ad op now).status = "empty"
      ∧ (executeOp ad op now).progress = 0 := by
  refine ⟨?_, ?_, ?_⟩ <;>
    simp [executeOp, h, ResetOperation.status, opStatus,
      ResetOperation.progress, progressTasks]

/-- C5, witness for the amended theorem at a concrete empty operation. -/
theorem C5_witness :
    (executeOp dryRunAdapter emptyOp 1).tasks = []
      ∧ (executeOp dryRunAdapter emptyOp 1).status = "empty"
      ∧ (executeOp dryRunAdapter emptyOp 1).progress = 0 :=
  C5_amended dryRunAdapter emptyOp 1 rfl

/-- C10: the action enum carries `CHECKPOINT_RESTORE` and `REBUILD` beyond
the two actions the spec names; `plan_reset` accepts them without error
(every planned task carries the action), and during execution such a task is
marked `failed` with an `Unsupported action: …` error message and is never
dispatched to the adapter (its result is independent of the adapter). -/
theorem C10_extra_actions (act : ResetAction)
    (h : act = .CHECKPOINT_RESTORE ∨ act = .REBUILD) :
    (∀ (cfg : RangeConfig) (oid : String) (lvl : ResetLevel)
        (sn zone : Option String) (team : Option Int) (vmn : Option String),
        ∀ t ∈ (plan_reset cfg oid lvl act sn zone team vmn).tasks, t.action = act)
      ∧ (∀ (ad : Adapter) (now : Nat) (t : ResetTask), t.action = act →
          (executeTask ad now t).status = "failed"
            ∧ (executeTask ad now t).error
                = some ("Unsupported action: " ++ actionStr act)
            ∧ ∀ ad' : Adapter, executeTask ad now t = executeTask ad' now t) := by
  have hdisp : ∀ (ad : Adapter) (t : ResetTask), t.action = act →
      dispatchAction ad t = .error ("Unsupported action: " ++ actionStr act) := by
    intro ad t hact
    rw [dispatchAction]
    rcases h with h | h <;> rw [hact, h]
  constructor
  · intro cfg oid lvl sn zone team vmn t ht
    rw [plan_reset] at ht
    simp only [List.mem_map] at ht
    obtain ⟨v, hv, rfl⟩ := ht
    rfl
  · intro ad now t hact
    refine ⟨?_, ?_, ?_⟩
    · rw [executeTask_of_error ad now t _ (hdisp ad t hact)]
    · rw [executeTask_of_error ad now t _ (hdisp ad t hact)]
    · intro ad'
      rw [executeTask_of_error ad now t _ (hdisp ad t hact),
        executeTask_of_error ad' now t _ (hdisp ad' t hact)]

/-- C10, witness: a concrete `CHECKPOINT_RESTORE` task fails on execution
with the `Unsupported action` message. -/
theorem C10_witness :
    (executeTask dryRunAdapter 0 checkpointTask).status = "failed"
      ∧ (executeTask dryRunAdapter 0 checkpointTask).error
          = some "Unsupported action: ResetAction.CHECKPOINT_RESTORE" := by
  have h := (C10_extra_actions .CHECKPOINT_RESTORE (Or.inl rfl)).2
    dryRunAdapter 0 checkpointTask rfl
  exact ⟨h.1, by rw [h.2.1]; decide⟩

theorem vmsToReset_VM_length (cfg : RangeConfig) (zone : Option String)
    (team : Option Int) (nm : Option String) :
    (vmsToReset cfg .VM zone team nm).length
      = (allVmNames cfg).countP (· == nm) := by
  rw [vmsToReset, allVmNames]
  induction cfg.zones with
  | nil => rfl
  | cons z zs ih =>
    rw [List.flatMap_cons, List.flatMap_cons, List.length_append,
      List.countP_append, ih]
    have hzone : zoneSkipped ResetLevel.VM zone z.1 = false := rfl
    simp only [hzone, Bool.false_eq_true, if_false, List.length_map,
      List.countP_map]
    rw [← List.countP_eq_length_filter]
    congr 1
    apply List.countP_congr
    intro v hv
    simp [vmSkipped, Function.comp]

/-- C2: per-task failure isolation of the executor.  If, among the planned
tasks, the adapter call for exactly the task at index `k` raises (modelled by
`dispatchAction` returning `Except.error emsg`) and every other task's call
succeeds, then executing the operation marks task `k` `failed` with `emsg`
recorded as its error string, marks every other task `completed`, and
returns the full task list to its caller (the executor catches each task's
exception locally, so nothing propagates: `executeOp` is total and its
result is the mapped task list). -/
theorem C2_fault_isolation (ad : Adapter) (op : ResetOperation) (now k : Nat)
    (emsg : String) (hk : k < op.tasks.length)
    (hfail : dispatchAction ad (op.tasks.getD k dfltTask) = .error emsg)
    (hok : ∀ j, j < op.tasks.length → j ≠ k →
      dispatchAction ad (op.tasks.getD j dfltTask) = .ok ()) :
    (executeOp ad op now).tasks.length = op.tasks.length
      ∧ ((executeOp ad op now).tasks.getD k dfltTask).status = "failed"
      ∧ ((executeOp ad op now).tasks.getD k dfltTask).error = some emsg
      ∧ ∀ j, j < op.tasks.length → j ≠ k →
          ((executeOp ad op now).tasks.getD j dfltTask).status = "completed" := by
  have hmap : (executeOp ad op now).tasks = op.tasks.map (executeTask ad now) := rfl
  refine ⟨by rw [hmap, List.length_map], ?_, ?_, ?_⟩
  · rw [hmap, getD_map_lt _ _ _ _ dfltTask hk,
      executeTask_of_error ad now _ emsg hfail]
  · rw [hmap, getD_map_lt _ _ _ _ dfltTask hk,
      executeTask_of_error ad now _ emsg hfail]
  · intro j hj hne
    rw [hmap, getD_map_lt _ _ _ _ dfltTask hj,
      executeTask_of_ok ad now _ (hok j hj hne)]

/-- C2, witness: three power-cycle tasks against an adapter that fails only
for the VM `bad` (index 1): task 1 ends `failed` with the error recorded,
tasks 0 and 2 end `completed`. -/
theorem C2_witness :
    ((executeOp (failAdapter (some "bad")) opThree 0).tasks.getD 1 dfltTask).status
        = "failed"
      ∧ ((executeOp (failAdapter (some "bad")) opThree 0).tasks.getD 1 dfltTask).error
          = some "VM not found: bad"
      ∧ ((executeOp (failAdapter (some "bad")) opThree 0).tasks.getD 0 dfltTask).status
          = "completed"
      ∧ ((executeOp (failAdapter (some "bad")) opThree 0).tasks.getD 2 dfltTask).status
          = "completed" := by
  have h := C2_fault_isolation (failAdapter (some "bad")) opThree 0 1
    "VM not found: bad" (by decide) rfl ?hok
  case hok =>
    intro j hj hne
    match j, hne, hj with
    | 0, _, _ => rfl
    | 1, hne, _ => exact absurd rfl hne
    | 2, _, _ => rfl
    | (n + 3), _, hj =>
      rw [show opThree.tasks.length = 3 from rfl] at hj
      omega
  exact ⟨h.2.1, h.2.2.1, h.2.2.2 0 (by decide) (by decide),
    h.2.2.2 2 (by decide) (by decide)⟩

/-- C6, counterexample: a reachable execution state of a two-task operation
(one task succeeded, one failed) in which every task has reached a terminal
state yet the derived progress is 50%, not 100% — refuting "progress equals
100% if and only if every task has reached a terminal state (completed or
failed)". -/
theorem C6_counterexample :
    ((runSched (failAdapter (some "bad")) { tasks := opMixed.tasks, clock := 0 }
        [0, 1, 0, 1]).tasks.all fun t =>
          t.status == "completed" || t.status == "failed") = true
      ∧ progressTasks (runSched (failAdapter (some "bad"))
          { tasks := opMixed.tasks, clock := 0 } [0, 1, 0, 1]).tasks = 50
      ∧ (50 : ℚ) ≠ 100 := by
  have htasks : (runSched (failAdapter (some "bad"))
      { tasks := opMixed.tasks, clock := 0 } [0, 1, 0, 1]).tasks
      = [{ vm_name := some "good", action := .POWER_CYCLE, snapshot_name := none,
           status := "completed", start_time := some 0, end_time := some 2,
           error := none },
         { vm_name := some "bad", action := .POWER_CYCLE, snapshot_name := none,
           status := "failed", start_time := some 1, end_time := some 3,
           error := some "VM not found: bad" }] := by decide
  refine ⟨by decide, ?_, by norm_num⟩
  rw [htasks, progressTasks, if_neg (by simp),
    show (List.countP (fun t => t.status == "completed")
      [({ vm_name := some "good", action := .POWER_CYCLE, snapshot_name := none,
          status := "completed", start_time := some 0, end_time := some 2,
          error := none } : ResetTask),
        { vm_name := some "bad", action := .POWER_CYCLE, snapshot_name := none,
          status := "failed", start_time := some 1, end_time := some 3,
          error := some "VM not found: bad" }]) = 1 from by decide]
  norm_num

/-- C6, amended: over the lifetime of a single `execute` call — that is,
along any schedule of cooperative steps the event loop can take from any
state — the derived progress is non-decreasing; and for a nonempty task list
the progress equals 100% if and only if every task has status `completed`
(a `failed` task is terminal but keeps progress strictly below 100%). -/
theorem C6_amended :
    (∀ (ad : Adapter) (s : ExecState) (sched : List Nat),
        progressTasks s.tasks ≤ progressTasks (runSched ad s sched).tasks)
      ∧ (∀ l : List ResetTask, l ≠ [] →
          (progressTasks l = 100 ↔ ∀ t ∈ l, t.status = "completed")) := by
  constructor
  · intro ad s sched
    exact progressTasks_runSched ad sched s
  · intro l hl
    rcases l with _ | ⟨a, as⟩
    · exact absurd rfl hl
    · rw [progressTasks, if_neg (by simp)]
      have hn : (((a :: as).length : Nat) : ℚ) ≠ 0 :=
        Nat.cast_ne_zero.mpr (by simp)
      constructor
      · intro h
        have hcn : (((a :: as).countP fun t => t.status == "completed" : Nat) : ℚ)
            = (((a :: as).length : Nat) : ℚ) := by
          field_simp at h
          simp only [List.length_cons]
          push_cast
          linarith
        have hcnt : ((a :: as).countP fun t => t.status == "completed")
            = (a :: as).length := by exact_mod_cast hcn
        intro t ht
        have := List.countP_eq_length.mp hcnt t ht
        simpa using this
      · intro h
        have hcnt : ((a :: as).countP fun t => t.status == "completed")
            = (a :: as).length :=
          List.countP_eq_length.mpr (fun t ht => by simp [h t ht])
        rw [hcnt, div_self hn, one_mul]

/-- C6, witness for the amended theorem: a singleton list holding one
completed task has progress exactly 100%. -/
theorem C6_witness : progressTasks [doneTask] = 100 :=
  (C6_amended.2 [doneTask] (by decide)).mpr (by decide)

/-- C7: through the whole lifecycle, `end_time` is set iff the task status
is terminal (`completed` or `failed`) and `error` is set iff the status is
`failed`: every freshly planned task satisfies the invariant, and any
schedule of cooperative execution steps — including the terminal transition,
whose `finally` clause always sets `end_time` regardless of outcome —
preserves it, so it holds at every point from plan time through execution. -/
theorem C7_lifecycle :
    (∀ (cfg : RangeConfig) (oid : String) (lvl : ResetLevel) (act : ResetAction)
        (sn zone : Option String) (team : Option Int) (vmn : Option String),
        ∀ t ∈ (plan_reset cfg oid lvl act sn zone team vmn).tasks, taskInv t)
      ∧ (∀ (ad : Adapter) (s : ExecState) (sched : List Nat),
          (∀ t ∈ s.tasks, taskInv t) →
          ∀ t ∈ (runSched ad s sched).tasks, taskInv t) := by
  constructor
  · intro cfg oid lvl act sn zone team vmn t ht
    rw [plan_reset] at ht
    simp only [List.mem_map] at ht
    obtain ⟨v, hv, rfl⟩ := ht
    constructor
    · simp
      decide
    · simp
      decide
  · intro ad s sched h
    exact taskInv_runSched ad sched s h

/-- C7, witness: running a freshly planned single task to completion through
the two-stage schedule preserves the invariant at the final task. -/
theorem C7_witness : taskInv doneTask :=
  C7_lifecycle.2 dryRunAdapter { tasks := [pendTask], clock := 0 } [0, 0]
    (by decide) doneTask (by decide)

/-- C8, counterexample: with two zones each holding a VM named `x`, planning
a `VM`-scope reset with filter `x` yields two entries, refuting "yields at
most one entry" for arbitrary topologies. -/
theorem C8_counterexample :
    (plan_reset cfgDup "op" .VM .POWER_CYCLE none none none (some "x")).tasks.length
      = 2 := by
  decide

theorem countP_beq_le_one_of_nodup {α : Type} [BEq α] [LawfulBEq α] (l : List α)
    (a : α) (hl : l.Nodup) : l.countP (· == a) ≤ 1 := by
  induction l with
  | nil => simp
  | cons b bs ih =>
    obtain ⟨hb, hbs⟩ := List.nodup_cons.mp hl
    rw [List.countP_cons]
    by_cases hba : b = a
    · subst hba
      have h0 : bs.countP (· == b) = 0 := by
        apply List.countP_eq_zero.mpr
        intro x hx h
        rw [beq_iff_eq] at h
        exact hb (h ▸ hx)
      simp [h0]
    · have hf : (b == a) = false := by simp [hba]
      rw [hf]
      simpa using ih hbs

/-- C8, amended: `VM`-scope resolution returns every VM whose name equals
the filter, so it yields at most one entry whenever VM names are unique
across the topology; and when no VM matches, it yields an empty operation
(an empty list, not an error). -/
theorem C8_amended (cfg : RangeConfig) (oid : String) (act : ResetAction)
    (sn zone : Option String) (team : Option Int) (f : String) :
    ((allVmNames cfg).Nodup →
        (plan_reset cfg oid .VM act sn zone team (some f)).tasks.length ≤ 1)
      ∧ ((∀ n ∈ allVmNames cfg, n ≠ some f) →
        (plan_reset cfg oid .VM act sn zone team (some f)).tasks = []) := by
  have hlen : (plan_reset cfg oid .VM act sn zone team (some f)).tasks.length
      = (allVmNames cfg).countP (· == some f) := by
    rw [plan_reset]
    simp only [List.length_map]
    exact vmsToReset_VM_length cfg zone team (some f)
  constructor
  · intro hnd
    rw [hlen]
    exact countP_beq_le_one_of_nodup (allVmNames cfg) (some f) hnd
  · intro hno
    rw [← List.length_eq_zero, hlen]
    exact List.countP_eq_zero.mpr (fun n hn => by simp [hno n hn])

/-- C8, witness: with unique VM names, `VM`-scope planning yields at most
one task. -/
theorem C8_witness :
    (plan_reset cfgTeams "op" .VM .POWER_CYCLE none none none (some "a")).tasks.length
      ≤ 1 :=
  (C8_amended cfgTeams "op" .POWER_CYCLE none none none "a").1 (by decide)

/-- C9, counterexample: for an operation with zero tasks (derived status
`empty`), `main` returns exit code 1 — "No VMs matched the specified
criteria" — before executing, refuting "success if and only if the derived
status is 'completed' or 'empty'". -/
theorem C9_counterexample :
    mainExitCode dryRunAdapter emptyOp 0 = 1
      ∧ emptyOp.status = "empty"
      ∧ (1 : Nat) ≠ 0 := by
  decide

/-- C9, amended: the exit status is success (0) if and only if the plan is
nonempty and the executed operation's derived status is `completed`; an
empty plan exits with 1 before execution, and any failed task forces the
derived status away from `completed`, hence a nonzero exit. -/
theorem C9_amended (ad : Adapter) (op : ResetOperation) (now : Nat) :
    (mainExitCode ad op now = 0
        ↔ (op.tasks ≠ [] ∧ (executeOp ad op now).status = "completed"))
      ∧ ((∃ t ∈ (executeOp ad op now).tasks, t.status = "failed")
          → mainExitCode ad op now = 1) := by
  constructor
  · rw [mainExitCode]
    by_cases he : op.tasks.isEmpty = true
    · rw [if_pos he]
      simp [List.isEmpty_iff.mp he]
    · rw [if_neg he]
      have hne : op.tasks ≠ [] := by simpa [List.isEmpty_iff] using he
      by_cases hc : (executeOp ad op now).status = "completed"
      · simp [hc, hne]
      · simp [hc]
  · rintro ⟨t, ht, hf⟩
    rw [mainExitCode]
    by_cases he : op.tasks.isEmpty = true
    · rw [if_pos he]
    · rw [if_neg he, if_neg ?_]
      have hst : (executeOp ad op now).status = "failed" :=
        opStatus_eq_failed _ t ht hf
      rw [hst]
      decide

/-- C9, witness for the failed-task implication: one failing task yields
exit code 1. -/
theorem C9_witness : mainExitCode (failAdapter (some "bad")) opOneBad 0 = 1 :=
  (C9_amended (failAdapter (some "bad")) opOneBad 0).2
    ⟨{ vm_name := some "bad", action := .POWER_CYCLE, snapshot_name := none,
       status := "failed", start_time := some 0, end_time := some 0,
       error := some "VM not found: bad" },
     by decide, rfl⟩
